import Mathlib

/-!
Verification development for the `http-log-wrap` Go middleware
(`github.com/SyaibanAhmadRamadhan/http-log-wrap`, package `whttp`).

The Go code is shallowly embedded: pure helpers become Lean functions,
stateful code becomes explicit state passing, and effects on the trace span
and on the HTTP response writer become explicit operation lists.  External
collaborators (the tracing backend, JSON marshalling, the validation engine,
the byte sink underneath the response writer) are modelled as parameters, as
the design treats them as opaque capabilities with a fixed contract.
-/

namespace HttpLogWrap

/-! ## Effect vocabulary

Operations invoked on an OpenTelemetry span handle and on the underlying
`http.ResponseWriter`.  Integer-valued span attributes are rendered through
`toString`, which loses nothing for the properties proved here. -/

/-- One operation invoked on the per-request trace span. -/
inductive SpanOp where
  | setAttr (key value : String)
  | recordError (msg : String)
  | setStatus (msg : String)
  | setName (name : String)
  | endSpan
  deriving DecidableEq, Repr

/-- One operation invoked on the real (underlying) HTTP response writer. -/
inductive RespOp where
  | setHeader (key value : String)
  | writeHeader (code : Nat)
  | write (body : String)
  deriving DecidableEq, Repr

/-- A Go `error` value as it flows through this library: its `Error()`
message, plus the `validator.ValidationErrors` payload when `errors.As`
can unwrap one (a list of (field name, translated message) pairs). -/
structure GoError where
  msg : String
  validation : Option (List (String × String))
  deriving DecidableEq, Repr

/-- `StackTrace` (helper file): wraps an error as
`fmt.Errorf("%s:%d: %w", frame.Function, frame.Line, err)`.  The runtime
frame text is abstracted as `frame`.  `%w` wrapping preserves the
`errors.As` unwrap to `validator.ValidationErrors`. -/
def StackTrace (frame : String) (e : GoError) : GoError :=
  ⟨frame ++ ": " ++ e.msg, e.validation⟩

/-! ## Response recorder (`writer.go`) -/

/-- State of the `ResponseWriter` decorator from `writer.go`.  `buffer`
models the `*bytes.Buffer` pointer: `none` is the nil pointer, `some bs`
a buffer holding bytes `bs`. -/
structure ResponseWriter where
  status : Nat
  size : Nat
  logParams : Bool
  logRespBody : Bool
  logReqBody : Bool
  buffer : Option (List Nat)
  deriving DecidableEq, Repr

/-- A freshly allocated recorder as `Opentelemetry.Trace` builds it before
applying options: all log toggles default to true, status and size zero,
buffer nil. -/
def ResponseWriter.init : ResponseWriter :=
  ⟨0, 0, true, true, true, none⟩

/-- `ResponseWriter.WriteHeader` from `writer.go`: stores the status and
forwards to the wrapped writer (the forwarding carries no recorder state). -/
def ResponseWriter.WriteHeader (rw : ResponseWriter) (status : Nat) : ResponseWriter :=
  { rw with status := status }

/-- `ResponseWriter.Write` from `writer.go`.  The underlying sink's reply to
`rw.ResponseWriter.Write(body)` is an input: `sinkN` bytes reported written
and `sinkErr`.  The Go body is

* `if rw.status == 0 { rw.status = http.StatusOK }`
* `size, err := rw.ResponseWriter.Write(body); rw.size = size`
* `if rw.logRespBody { rw.buffer = new(bytes.Buffer); rw.buffer.Write(body) }`
  — a fresh buffer holding a copy of `body` (`bytes.Buffer.Write` copies)
* `return size, err`. -/
def ResponseWriter.Write (rw : ResponseWriter) (body : List Nat) (sinkN : Nat)
    (sinkErr : Option String) : ResponseWriter × Nat × Option String :=
  let rw1 := if rw.status = 0 then { rw with status := 200 } else rw
  let rw2 := { rw1 with size := sinkN }
  let rw3 := if rw2.logRespBody then { rw2 with buffer := some body } else rw2
  (rw3, sinkN, sinkErr)

/-- A sequence of `Write` calls during one request: each element is the
payload together with the byte count the underlying sink reports for it
(the sink errors are irrelevant to the recorder state and set to `none`). -/
def writeSeq (rw : ResponseWriter) (calls : List (List Nat × Nat)) : ResponseWriter :=
  calls.foldl (fun st c => (st.Write c.1 c.2 none).1) rw

/-- Cumulative sum of the sink-reported counts of a call sequence. -/
def sumSinkCounts (calls : List (List Nat × Nat)) : Nat :=
  (calls.map (·.2)).sum

/-- Concatenation of all payloads of a call sequence. -/
def concatBodies (calls : List (List Nat × Nat)) : List Nat :=
  (calls.map (·.1)).flatten

/-! ## Human-readable size formatting (`formatSize`, helper file)

The Go function computes `float64(size) / KB` (resp. `MB`, `GB`) and renders
it with `fmt.Sprintf("%.2f", ...)`.  Both steps are exact-rational
computations: converting an `int` to `float64` rounds it to 53 significant
bits (ties to even), dividing by a power of two only shifts the exponent
(exact), and Go's fixed-precision decimal formatting rounds the exact binary
value to two decimals, ties to even (`strconv` `shouldRoundUp`).  The model
below implements exactly that arithmetic on `Nat`, so it is faithful for the
whole `int64` range. -/

/-- Round `num / den` to the nearest integer, ties to even (`den > 0`). -/
def roundHalfEven (num den : Nat) : Nat :=
  let q := num / den
  let r := num % den
  if 2 * r < den then q
  else if den < 2 * r then q + 1
  else if q % 2 = 0 then q else q + 1

/-- The exact value of Go's `float64(n)` for a natural `n`: identity below
`2^53`, otherwise `n` rounded to a 53-bit significand (ties to even). -/
def float64OfNat (n : Nat) : Nat :=
  if n < 2 ^ 53 then n
  else
    let e := n.log2 - 52
    roundHalfEven n (2 ^ e) * 2 ^ e

/-- Go's `fmt.Sprintf("%.2f", x)` for the exact nonnegative rational
`num / den`: round `num * 100 / den` to an integer (ties to even) and print
it with two digits after the decimal point. -/
def sprintfF2 (num den : Nat) : String :=
  let centi := roundHalfEven (num * 100) den
  toString (centi / 100) ++ "." ++
    (if centi % 100 < 10 then "0" else "") ++ toString (centi % 100)

/-- `formatSize` (helper file): thresholds checked from `GB` down on the
`int` argument; the sub-`KB` branch is `fmt.Sprintf("%d B", size)`. -/
def formatSize (size : Int) : String :=
  let KB : Int := 1024
  let MB : Int := 1024 * KB
  let GB : Int := 1024 * MB
  if GB ≤ size then sprintfF2 (float64OfNat size.toNat) (1024 ^ 3) ++ " GB"
  else if MB ≤ size then sprintfF2 (float64OfNat size.toNat) (1024 ^ 2) ++ " MB"
  else if KB ≤ size then sprintfF2 (float64OfNat size.toNat) 1024 ++ " KB"
  else toString size ++ " B"

/-! ## Error responder (`Opentelemetry.Err`) and its helpers -/

/-- `strings.Join(elems, sep)`. -/
def goJoin (elems : List String) (sep : String) : String :=
  match elems with
  | [] => ""
  | x :: xs => xs.foldl (fun acc s => acc ++ sep ++ s) x

/-- `http.StatusText` restricted to the codes this library emits or that the
specification mentions; Go returns the empty string for unknown codes. -/
def statusText (code : Nat) : String :=
  match code with
  | 200 => "OK"
  | 400 => "Bad Request"
  | 404 => "Not Found"
  | 422 => "Unprocessable Entity"
  | 500 => "Internal Server Error"
  | _ => ""

/-- `getMsgError` (helper file): joins the override messages with `". "`
when at least one is supplied, otherwise falls back to `http.StatusText`. -/
def getMsgError (msg : List String) (code : Nat) : String :=
  if msg.length > 0 then goJoin msg ". " else statusText code

/-- Go map assignment `m[key] = val` on an association-list model: keys are
unique, assignment overwrites in place or appends a new key. -/
def mapSet {α : Type} (m : List (String × α)) (key : String) (val : α) :
    List (String × α) :=
  if m.any (fun p => p.1 = key) then
    m.map (fun p => if p.1 = key then (key, val) else p)
  else m ++ [(key, val)]

/-- The `Error400.Errors` map built by `Err` from a
`validator.ValidationErrors` list: for each field error,
`errMsg.Errors[fieldName] = []string{translated}` (later errors on the same
field overwrite earlier ones). -/
def buildError400 (verrs : List (String × String)) : List (String × List String) :=
  verrs.foldl (fun m fe => mapSet m fe.1 [fe.2]) []

/-- The value handed to `json.Marshal` by `Err`: either
`BasicError{Message: ...}` or `Error400{Errors: ...}` (types file). -/
inductive ErrBody where
  | basicError (message : String)
  | error400 (errs : List (String × List String))
  deriving DecidableEq, Repr

/-- The literal fallback body written when marshalling the error body
fails. -/
def defaultErrorBody : String := "\x7b\"error\": \"internal server error\"\x7d"

/-- `setAttr` (helper file): sets a span attribute, a no-op when the span is
not recording. -/
def setAttr (isRecording : Bool) (key value : String) : List SpanOp :=
  if isRecording then [.setAttr key value] else []

/-- `RecordErrorOtel` (helper file): when the span is recording,
`span.RecordError(err)` followed by `span.SetStatus(codes.Error,
err.Error())` (the call sites never pass a nil error, so the nil guard is
not modelled). -/
def RecordErrorOtel (isRecording : Bool) (err : GoError) : List SpanOp :=
  if isRecording then [.recordError err.msg, .setStatus err.msg] else []

/-- `Opentelemetry.Err(w, r, code, err, messages...)` from `otel_Trace.go`.
JSON marshalling is an external capability `marshal` (it may fail, which the
code handles via `writeDefaultErrorResponse`).  Returns the operations
invoked on the span and on the response writer, in order.  The Go body:

* `setAttr(ctx, semconv.ExceptionMessage(err.Error()))`
* `w.Header().Set("Content-Type", "application/json")`; `w.WriteHeader(code)`
* `msg := getMsgError(messages, code)`
* if `errors.As(err, &validationErrors)`: marshal `Error400` built from the
  field errors, else marshal `BasicError{Message: msg}`; on marshal failure
  `RecordErrorOtel` + write the literal fallback body and return
* `if code >= 500 { RecordErrorOtel(ctx, err) }`; `w.Write(errMsgByte)`. -/
def Err (isRecording : Bool) (marshal : ErrBody → Option String) (code : Nat)
    (err : GoError) (messages : List String) : List SpanOp × List RespOp :=
  let attr0 := setAttr isRecording "exception.message" err.msg
  let hdr : List RespOp := [.setHeader "Content-Type" "application/json", .writeHeader code]
  let msg := getMsgError messages code
  match err.validation with
  | some verrs =>
    match marshal (.error400 (buildError400 verrs)) with
    | none => (attr0 ++ RecordErrorOtel isRecording err, hdr ++ [.write defaultErrorBody])
    | some s =>
      (attr0 ++ (if 500 ≤ code then RecordErrorOtel isRecording err else []),
        hdr ++ [.write s])
  | none =>
    match marshal (.basicError msg) with
    | none => (attr0 ++ RecordErrorOtel isRecording err, hdr ++ [.write defaultErrorBody])
    | some s =>
      (attr0 ++ (if 500 ≤ code then RecordErrorOtel isRecording err else []),
        hdr ++ [.write s])

/-- The body value `Err` hands to `json.Marshal` for a given error and
override messages. -/
def chosenErrBody (err : GoError) (messages : List String) (code : Nat) : ErrBody :=
  match err.validation with
  | some verrs => .error400 (buildError400 verrs)
  | none => .basicError (getMsgError messages code)

/-! ## Span lifecycle (`Opentelemetry.Trace`) and panic recovery -/

/-- `http.Header`: a map from canonical header names to value lists.  The
association-list model keeps keys unique; Go stores keys already in
canonical MIME form, and `"Connection"` / `"Upgrade"` are canonical. -/
abbrev Header := List (String × List String)

/-- `http.Header.Get`: first value for the key, `""` when absent. -/
def headerGet (h : Header) (key : String) : String :=
  match h.find? (fun p => p.1 = key) with
  | some p => match p.2 with
    | [] => ""
    | v :: _ => v
  | none => ""

/-- The parts of `*http.Request` this middleware reads. -/
structure Request where
  method : String
  path : String
  rawQuery : String
  queryPairs : List (String × String)
  headers : Header
  deriving DecidableEq, Repr

/-- The value recovered from a panicking handler: either the sentinel
`http.ErrAbortHandler` or any other value, carrying its dynamic type string
(`fmt.Sprintf("%T", r)`) and display text (`fmt.Sprintf("%v", r)`). -/
inductive PanicValue where
  | errAbortHandler
  | other (typeStr msg : String)
  deriving DecidableEq, Repr

/-- `fmt.Sprintf("%T", r)`; `http.ErrAbortHandler` is an
`*errors.errorString`. -/
def PanicValue.typeString : PanicValue → String
  | .errAbortHandler => "*errors.errorString"
  | .other t _ => t

/-- `fmt.Sprintf("%v", r)`. -/
def PanicValue.message : PanicValue → String
  | .errAbortHandler => "net/http: abort Handler"
  | .other _ m => m

/-- How one run of the wrapped handler terminates. -/
inductive HandlerOutcome where
  | normal
  | panics (pv : PanicValue)
  deriving DecidableEq, Repr

/-- Configuration state of the `Opentelemetry` middleware (`otel_Trace.go`):
whether a propagator was installed, whether `WithRecoverMode` enabled
recovery, its stdout-logging flag, and whether a validator is configured. -/
structure Opentelemetry where
  hasPropagator : Bool
  recoverOn : Bool
  logStdOutPanic : Bool
  hasValidator : Bool
  deriving DecidableEq, Repr

/-- The result of running the traced middleware (or its recovery handler):
the span operations and underlying-writer operations performed, in order,
and the value re-raised by `panic` when the middleware does not swallow the
handler's panic. -/
structure RunResult where
  spanOps : List SpanOp
  respOps : List RespOp
  repanic : Option PanicValue
  deriving DecidableEq, Repr

/-- `convertHeaderName` (helper file, package `whttp`): lower-cases the
header name. -/
def convertHeaderName (headerName : String) : String :=
  headerName.toLower

/-- `queryParamToSpan` (helper file): the raw query attribute followed by
one attribute per query key/value pair. -/
def queryParamToSpanOps (req : Request) : List SpanOp :=
  SpanOp.setAttr "http.request.query.raw" req.rawQuery ::
    req.queryPairs.map (fun p => SpanOp.setAttr ("http.request.query.params." ++ p.1) p.2)

/-- `bytes.Buffer.String()` through the nil pointer: Go returns `"<nil>"`
for a nil `*bytes.Buffer`; otherwise the buffer's bytes as a string. -/
def bufferString : Option (List Nat) → String
  | none => "<nil>"
  | some bs => String.mk (bs.map Char.ofNat)

/-- `Opentelemetry.recoverHandler(writer, request, span, r)` from
`otel_Trace.go`.  `stack` abstracts `string(debug.Stack())`.  The Go body:

* always: `span.SetAttributes(exception.type, exception.message)`
* `r == http.ErrAbortHandler`: `span.RecordError(errors.New(stack))`,
  `span.End()`, `panic(r)`
* `!o.recover`: same record/end/panic
* recovery enabled: optional stdout/log-entry dump (no span or response
  effect); then if `Connection` header is not `"Upgrade"`, delegate to
  `o.Err(writer, request, 500, errors.New(stack))`, else only
  `span.RecordError(errors.New(stack))`; finally `span.End()`. -/
def recoverHandler (o : Opentelemetry) (isRecording : Bool)
    (marshal : ErrBody → Option String) (req : Request) (pv : PanicValue)
    (stack : String) : RunResult :=
  let attrs : List SpanOp :=
    [.setAttr "exception.type" pv.typeString, .setAttr "exception.message" pv.message]
  if pv = .errAbortHandler then
    ⟨attrs ++ [.recordError stack, .endSpan], [], some pv⟩
  else if ¬ o.recoverOn then
    ⟨attrs ++ [.recordError stack, .endSpan], [], some pv⟩
  else if headerGet req.headers "Connection" ≠ "Upgrade" then
    let errOps := Err isRecording marshal 500 ⟨stack, none⟩ []
    ⟨attrs ++ errOps.1 ++ [.endSpan], errOps.2, none⟩
  else
    ⟨attrs ++ [.recordError stack, .endSpan], [], none⟩

/-- The span operations `Opentelemetry.Trace` performs before delegating to
the wrapped handler: one attribute per request header (lower-cased name,
values joined with `", "`), then, when `logParams` is set on the recorder,
the query-parameter attributes.  (The attributes passed to `Start` itself
and the propagator inject/extract calls touch no span-op surface modelled
here.) -/
def tracePreOps (req : Request) (recorder : ResponseWriter) : List SpanOp :=
  (req.headers.map fun p =>
    SpanOp.setAttr ("http.request.header." ++ convertHeaderName p.1) (goJoin p.2 ", "))
  ++ (if recorder.logParams then queryParamToSpanOps req else [])

/-- The span operations `Opentelemetry.Trace` performs after the handler
returns normally: response status/size attributes, a mirror of the response
headers (the code reuses the `http.request.header.` prefix), the buffered
response body when enabled, and the span rename
`fmt.Sprintf("%d %s %s", status, method, path)`. -/
def tracePostOps (req : Request) (recorder : ResponseWriter) (respHeaders : Header) :
    List SpanOp :=
  [.setAttr "http.response.status_code" (toString recorder.status),
   .setAttr "http.response.size.format" (formatSize (recorder.size : Int)),
   .setAttr "http.response.size.raw" (toString recorder.size)]
  ++ (respHeaders.map fun p =>
    SpanOp.setAttr ("http.request.header." ++ convertHeaderName p.1) (goJoin p.2 ", "))
  ++ (if recorder.logRespBody then
        [SpanOp.setAttr "http.response.body" (bufferString recorder.buffer)] else [])
  ++ [.setName (toString recorder.status ++ " " ++ req.method ++ " " ++ req.path)]

/-- One run of the closure returned by `Opentelemetry.Trace(next, opts...)`.
`recorder` is the recorder's state when the handler finishes (its option
flags are fixed before delegation and never change), `respHeaders` the
response header map read back from it, `outcome` how the handler terminates.
The deferred guard runs `recoverHandler` when `recover()` returns non-nil
and `span.End()` otherwise; on a panic the post-handler attribute block is
skipped. -/
def TraceRun (o : Opentelemetry) (isRecording : Bool)
    (marshal : ErrBody → Option String) (req : Request)
    (recorder : ResponseWriter) (respHeaders : Header)
    (outcome : HandlerOutcome) (stack : String) : RunResult :=
  let pre := tracePreOps req recorder
  match outcome with
  | .normal =>
    ⟨pre ++ tracePostOps req recorder respHeaders ++ [.endSpan], [], none⟩
  | .panics pv =>
    let r := recoverHandler o isRecording marshal req pv stack
    ⟨pre ++ r.spanOps, r.respOps, r.repanic⟩

/-- Number of `End` calls in a span-operation trace. -/
def countEnd : List SpanOp → Nat
  | [] => 0
  | SpanOp.endSpan :: rest => countEnd rest + 1
  | _ :: rest => countEnd rest

/-! ## Request body binder (`Opentelemetry.BindBodyRequest`) -/

/-- `Opentelemetry.BindBodyRequest(w, r, v)` from `otel_Trace.go`.  External
outcomes are parameters: `readRes` for `io.ReadAll(r.Body)`, `closeErr` for
the deferred `r.Body.Close()`, `unmarshalRes` for `json.Unmarshal` on the
body read, `validateRes` for `o.validator.v.Struct(v)`, and `frame` for the
stack frame `StackTrace` prepends.  `logReqBody` is the `log_req_body`
context flag set by `Trace`.  Returns (result, span ops, response ops); the
deferred close runs at function exit, so its attributes come last on every
path after the read succeeds. -/
def BindBodyRequest (o : Opentelemetry) (isRecording : Bool)
    (marshal : ErrBody → Option String) (logReqBody : Bool)
    (readRes : Except GoError String) (closeErr : Option GoError)
    (unmarshalRes : String → Option GoError) (validateRes : Option GoError)
    (frame : String) : Bool × List SpanOp × List RespOp :=
  match readRes with
  | .error e =>
    let errOps := Err isRecording marshal 422 e []
    (false, setAttr isRecording "error.type" "read_error" ++ errOps.1, errOps.2)
  | .ok body =>
    let closeOps := match closeErr with
      | some _ =>
        setAttr isRecording "error.type" "close_error" ++
          setAttr isRecording "exception.stacktrace" frame
      | none => []
    let logOps := if logReqBody then
      setAttr isRecording "http.request.body.json" body else []
    match unmarshalRes body with
    | some e =>
      let errOps := Err isRecording marshal 422 (StackTrace frame e) []
      (false,
        logOps ++ setAttr isRecording "error.type" "unmarshal_error" ++ errOps.1 ++ closeOps,
        errOps.2)
    | none =>
      if o.hasValidator then
        match validateRes with
        | some e =>
          let errOps := Err isRecording marshal 400 e []
          (false,
            logOps ++ setAttr isRecording "error.type" "validation_error" ++ errOps.1 ++ closeOps,
            errOps.2)
        | none => (true, logOps ++ closeOps, [])
      else (true, logOps ++ closeOps, [])

/-! ## Query parameter binder (`Opentelemetry.BindQueryParam`) -/

/-- `url.Values`: a map from query keys to value lists. -/
abbrev UrlValues := List (String × List String)

/-- Values already stored under `key` in `dst`, empty when absent
(Go's zero value for a missing map key). -/
def lookupValues (dst : UrlValues) (key : String) : List String :=
  match dst.find? (fun p => p.1 = key) with
  | some p => p.2
  | none => []

/-- `copyValues(dst, src)` (helper file):
`dst[k] = append(dst[k], vs...)` for every entry of `src`. -/
def copyValues (dst src : UrlValues) : UrlValues :=
  src.foldl (fun d p => mapSet d p.1 (lookupValues d p.1 ++ p.2)) dst

/-- `ParseQueryParam(r)` (helper file) acting on `r.Form` (modelled as
`Option UrlValues`, `none` = nil map).  `parseRes` is the outcome of
`url.ParseQuery(r.URL.RawQuery)` (the `r.URL == nil` guard cannot fire for
a server request and is not modelled).  The Go body:

* `if r.Form == nil { r.Form = make(url.Values) }`
* parse the raw query; on failure return `StackTrace(err)` with `r.Form`
  left as the (possibly fresh empty) map
* `copyValues(r.Form, newValues)`; return nil. -/
def ParseQueryParam (form : Option UrlValues) (parseRes : Except GoError UrlValues)
    (frame : String) : Option UrlValues × Option GoError :=
  let form1 : UrlValues := form.getD []
  match parseRes with
  | .error e => (some form1, some (StackTrace frame e))
  | .ok newValues => (some (copyValues form1 newValues), none)

/-- `Opentelemetry.BindQueryParam(w, r, v)` from `otel_Trace.go`.  External
outcomes are parameters: `parseRes` for `url.ParseQuery`, `decodeRes` for
`o.decoderSchema.Decode(v, r.Form)`, `validateRes` for the optional
validator run.  Returns (result, final `r.Form`, span ops, response ops).
The Go body:

* `ParseQueryParam(r)` failure: `error.type = parse_query_param`,
  `o.Err(w, r, 400, StackTrace(err))`, return false
* decode failure: `error.type = decoder_schema`,
  `o.Err(w, r, 400, StackTrace(err))`, return false
* `r.Form = nil`
* validator configured and failing: `error.type = validation_error`,
  `o.Err(w, r, 400, err)`, return false
* otherwise return true. -/
def BindQueryParam (o : Opentelemetry) (isRecording : Bool)
    (marshal : ErrBody → Option String) (form0 : Option UrlValues)
    (parseRes : Except GoError UrlValues) (decodeRes : UrlValues → Option GoError)
    (validateRes : Option GoError) (frame : String) :
    Bool × Option UrlValues × List SpanOp × List RespOp :=
  match ParseQueryParam form0 parseRes frame with
  | (form1, some e) =>
    let errOps := Err isRecording marshal 400 (StackTrace frame e) []
    (false, form1, setAttr isRecording "error.type" "parse_query_param" ++ errOps.1, errOps.2)
  | (form1, none) =>
    match decodeRes (form1.getD []) with
    | some e =>
      let errOps := Err isRecording marshal 400 (StackTrace frame e) []
      (false, form1, setAttr isRecording "error.type" "decoder_schema" ++ errOps.1, errOps.2)
    | none =>
      if o.hasValidator then
        match validateRes with
        | some e =>
          let errOps := Err isRecording marshal 400 e []
          (false, none, setAttr isRecording "error.type" "validation_error" ++ errOps.1, errOps.2)
        | none => (true, none, [], [])
      else (true, none, [], [])

/-! # Theorems -/

/-! ## Claims about the response recorder -/

/-- C1: the code keeps only the last `Write`'s sink-reported count
(`rw.size = size`, not `rw.size += size`).  After writing 3 bytes and then
2 bytes (sink reporting 3 and 2), the recorded size is 2, not the
cumulative 5 the claim states. -/
theorem c1_size_not_cumulative :
    (writeSeq ResponseWriter.init [([1, 2, 3], 3), ([4, 5], 2)]).size = 2 ∧
    sumSinkCounts [([1, 2, 3], 3), ([4, 5], 2)] = 5 ∧
    (writeSeq ResponseWriter.init [([1, 2, 3], 3), ([4, 5], 2)]).size ≠
      sumSinkCounts [([1, 2, 3], 3), ([4, 5], 2)] := by
  refine ⟨rfl, rfl, ?_⟩
  decide

/-- C2: with response-body logging enabled, each `Write` allocates a fresh
buffer (`rw.buffer = new(bytes.Buffer)`), so after two writes the buffer
holds only the last payload, not the concatenation. -/
theorem c2_buffer_not_concatenation :
    (writeSeq ResponseWriter.init [([1, 2, 3], 3), ([4, 5], 2)]).logRespBody = true ∧
    (writeSeq ResponseWriter.init [([1, 2, 3], 3), ([4, 5], 2)]).buffer = some [4, 5] ∧
    concatBodies [([1, 2, 3], 3), ([4, 5], 2)] = [1, 2, 3, 4, 5] ∧
    (writeSeq ResponseWriter.init [([1, 2, 3], 3), ([4, 5], 2)]).buffer ≠
      some (concatBodies [([1, 2, 3], 3), ([4, 5], 2)]) := by
  refine ⟨rfl, rfl, rfl, ?_⟩
  decide

/-- C5: a `Write` on a recorder whose status was never set (status sentinel
0) defaults the status to 200 and records the sink-reported count as the
size. -/
theorem c5_default_status_200 (rw : ResponseWriter) (body : List Nat) (sinkN : Nat)
    (sinkErr : Option String) (h : rw.status = 0) :
    ((rw.Write body sinkN sinkErr).1.status = 200 ∧
      (rw.Write body sinkN sinkErr).1.size = sinkN ∧
      (rw.Write body sinkN sinkErr).2.1 = sinkN) := by
  refine ⟨?_, ?_, rfl⟩ <;> simp only [ResponseWriter.Write, h, if_pos] <;>
    split <;> rfl

/-- C5 witness: `Write([1,2,3])` with the sink reporting 3 bytes, status
never set: recorded status is 200 and recorded size is 3. -/
theorem c5_default_status_200_witness :
    (ResponseWriter.init.Write [1, 2, 3] 3 none).1.status = 200 ∧
    (ResponseWriter.init.Write [1, 2, 3] 3 none).1.size = 3 := by
  have h := c5_default_status_200 ResponseWriter.init [1, 2, 3] 3 none rfl
  exact ⟨h.1, h.2.1⟩

/-! ## Claims about size formatting -/

/-- C4: `formatSize` renders `s` as `"%d B"` below 1024, as
`float64(s)/1024` under `"%.2f KB"` up to `1024^2`, likewise for MB and GB,
with the three concrete examples of the specification. -/
theorem c4_formatSize_branches (s : Int) :
    (s < 1024 → formatSize s = toString s ++ " B") ∧
    (1024 ≤ s → s < 1024 ^ 2 →
      formatSize s = sprintfF2 (float64OfNat s.toNat) 1024 ++ " KB") ∧
    (1024 ^ 2 ≤ s → s < 1024 ^ 3 →
      formatSize s = sprintfF2 (float64OfNat s.toNat) (1024 ^ 2) ++ " MB") ∧
    (1024 ^ 3 ≤ s →
      formatSize s = sprintfF2 (float64OfNat s.toNat) (1024 ^ 3) ++ " GB") ∧
    formatSize 500 = "500 B" ∧
    formatSize 2048 = "2.00 KB" ∧
    formatSize (5 * 1024 * 1024) = "5.00 MB" := by
  refine ⟨?_, ?_, ?_, ?_, by decide, by decide, by decide⟩ <;>
    intro h1 <;> unfold formatSize <;> simp only []
  · rw [if_neg (by omega), if_neg (by omega), if_neg (by omega)]
  · intro h2
    rw [if_neg (by nlinarith), if_neg (by nlinarith), if_pos h1]
  · intro h2
    rw [if_neg (by nlinarith), if_pos (by nlinarith)]
  · rw [if_pos (by nlinarith)]

/-- C4 witness: the KB branch applied at 2048. -/
theorem c4_formatSize_branches_witness :
    formatSize 2048 = sprintfF2 (float64OfNat (2048 : Int).toNat) 1024 ++ " KB" :=
  (c4_formatSize_branches 2048).2.1 (by decide) (by decide)

/-! ## Claims about the error responder -/

/-- Shared shape lemma: the response-writer operations of `Err` are always
the JSON content type, the status code, and exactly one body write — the
marshalled chosen body, or the literal fallback when marshalling fails. -/
theorem Err_respOps (isRecording : Bool) (marshal : ErrBody → Option String)
    (code : Nat) (err : GoError) (messages : List String) :
    (Err isRecording marshal code err messages).2 =
      [RespOp.setHeader "Content-Type" "application/json", RespOp.writeHeader code,
        RespOp.write ((marshal (chosenErrBody err messages code)).getD defaultErrorBody)] := by
  unfold Err chosenErrBody
  rcases hv : err.validation with _ | ve <;> dsimp only
  · rcases hm : marshal (ErrBody.basicError (getMsgError messages code)) with _ | s <;>
      simp [hm]
  · rcases hm : marshal (ErrBody.error400 (buildError400 ve)) with _ | s <;>
      simp [hm]

/-- Shared shape lemma: the span operations of `Err` are the
exception-message attribute followed by `RecordErrorOtel` exactly when the
marshal failed or the code is at least 500. -/
theorem Err_spanOps (isRecording : Bool) (marshal : ErrBody → Option String)
    (code : Nat) (err : GoError) (messages : List String) :
    (Err isRecording marshal code err messages).1 =
      setAttr isRecording "exception.message" err.msg ++
        (if marshal (chosenErrBody err messages code) = none then
          RecordErrorOtel isRecording err
        else if 500 ≤ code then RecordErrorOtel isRecording err else []) := by
  unfold Err chosenErrBody
  rcases hv : err.validation with _ | ve <;> dsimp only
  · rcases hm : marshal (ErrBody.basicError (getMsgError messages code)) with _ | s <;>
      simp [hm]
  · rcases hm : marshal (ErrBody.error400 (buildError400 ve)) with _ | s <;>
      simp [hm]

/-- `countEnd` distributes over append. -/
theorem countEnd_append (l1 l2 : List SpanOp) :
    countEnd (l1 ++ l2) = countEnd l1 + countEnd l2 := by
  induction l1 with
  | nil => simp [countEnd]
  | cons x rest ih => cases x <;> simp [countEnd, ih, Nat.add_right_comm]

/-- `countEnd` ignores a leading non-`End` operation. -/
theorem countEnd_setAttr (k v : String) (l : List SpanOp) :
    countEnd (SpanOp.setAttr k v :: l) = countEnd l := rfl

/-- `countEnd` ignores a leading `RecordError`. -/
theorem countEnd_recordError (m : String) (l : List SpanOp) :
    countEnd (SpanOp.recordError m :: l) = countEnd l := rfl

/-- `countEnd` ignores a leading `SetStatus`. -/
theorem countEnd_setStatus (m : String) (l : List SpanOp) :
    countEnd (SpanOp.setStatus m :: l) = countEnd l := rfl

/-- `countEnd` ignores a leading `SetName`. -/
theorem countEnd_setName (n : String) (l : List SpanOp) :
    countEnd (SpanOp.setName n :: l) = countEnd l := rfl

/-- `countEnd` of the empty trace. -/
theorem countEnd_nil : countEnd [] = 0 := rfl

/-- `countEnd` counts a leading `End`. -/
theorem countEnd_endSpan (l : List SpanOp) :
    countEnd (SpanOp.endSpan :: l) = countEnd l + 1 := rfl

/-- `setAttr` contributes no `End`. -/
theorem countEnd_setAttr_list (isRecording : Bool) (k v : String) :
    countEnd (setAttr isRecording k v) = 0 := by
  unfold setAttr
  split <;> rfl

/-- `RecordErrorOtel` contributes no `End`. -/
theorem countEnd_RecordErrorOtel (isRecording : Bool) (err : GoError) :
    countEnd (RecordErrorOtel isRecording err) = 0 := by
  unfold RecordErrorOtel
  split <;> rfl

/-- `Err` never ends the span. -/
theorem Err_no_end (isRecording : Bool) (marshal : ErrBody → Option String)
    (code : Nat) (err : GoError) (messages : List String) :
    countEnd (Err isRecording marshal code err messages).1 = 0 := by
  rw [Err_spanOps, countEnd_append, countEnd_setAttr_list]
  split
  · rw [countEnd_RecordErrorOtel]
  · split
    · rw [countEnd_RecordErrorOtel]
    · rfl

/-- C6: every `Err` call emits `Content-Type: application/json`, the given
status code, and exactly one body write; the body is the marshalled
`Error400` per-field shape for validation errors, the marshalled
`BasicError` with the override messages joined by `". "` (or the standard
status text when no override is given) otherwise, and the literal fallback
`{"error": "internal server error"}` with the original error recorded on
the span when marshalling fails. -/
theorem c6_err_response_shape (isRecording : Bool) (marshal : ErrBody → Option String)
    (code : Nat) (err : GoError) (messages : List String) :
    (∃ b, (Err isRecording marshal code err messages).2 =
      [RespOp.setHeader "Content-Type" "application/json", RespOp.writeHeader code,
        RespOp.write b]) ∧
    (∀ ve s, err.validation = some ve →
      marshal (.error400 (buildError400 ve)) = some s →
      (Err isRecording marshal code err messages).2 =
        [RespOp.setHeader "Content-Type" "application/json", RespOp.writeHeader code,
          RespOp.write s]) ∧
    (∀ s, err.validation = none → messages ≠ [] →
      marshal (.basicError (goJoin messages ". ")) = some s →
      (Err isRecording marshal code err messages).2 =
        [RespOp.setHeader "Content-Type" "application/json", RespOp.writeHeader code,
          RespOp.write s]) ∧
    (∀ s, err.validation = none → messages = [] →
      marshal (.basicError (statusText code)) = some s →
      (Err isRecording marshal code err messages).2 =
        [RespOp.setHeader "Content-Type" "application/json", RespOp.writeHeader code,
          RespOp.write s]) ∧
    (marshal (chosenErrBody err messages code) = none →
      (Err isRecording marshal code err messages).2 =
        [RespOp.setHeader "Content-Type" "application/json", RespOp.writeHeader code,
          RespOp.write defaultErrorBody] ∧
      (isRecording = true →
        SpanOp.recordError err.msg ∈ (Err isRecording marshal code err messages).1)) := by
  refine ⟨⟨_, Err_respOps ..⟩, ?_, ?_, ?_, ?_⟩
  · intro ve s hv hm
    rw [Err_respOps, chosenErrBody, hv, hm]
    rfl
  · intro s hv hne hm
    rw [Err_respOps, chosenErrBody, hv]
    have hlen : messages.length > 0 := by
      cases messages with
      | nil => exact absurd rfl hne
      | cons x xs => simp
    rw [getMsgError, if_pos hlen, hm]
    rfl
  · intro s hv he hm
    rw [Err_respOps, chosenErrBody, hv, he, getMsgError]
    simp only [List.length_nil, gt_iff_lt, lt_self_iff_false, if_false]
    rw [hm]
    rfl
  · intro hm
    refine ⟨by rw [Err_respOps, hm]; rfl, fun hrec => ?_⟩
    rw [Err_spanOps, hm, if_pos rfl, hrec]
    simp [setAttr, RecordErrorOtel]

/-- C6 witness: a 500 with no override messages and a working marshaller
writes the marshalled `BasicError` carrying the standard text for 500. -/
theorem c6_err_response_shape_witness :
    (Err true (fun _ => some "X") 500 ⟨"boom", none⟩ []).2 =
      [RespOp.setHeader "Content-Type" "application/json", RespOp.writeHeader 500,
        RespOp.write "X"] :=
  (c6_err_response_shape true (fun _ => some "X") 500 ⟨"boom", none⟩ []).2.2.2.1
    "X" rfl rfl rfl

/-- C7 counterexample: the claim's "RecordError+SetStatus iff code >= 500"
fails on the marshal-failure fallback, which records the error even for a
400: at `code = 400` with a failing marshaller the span receives
`RecordError` although `400 < 500`. -/
theorem c7_counterexample :
    ¬ (∀ (isRecording : Bool) (marshal : ErrBody → Option String) (code : Nat)
        (err : GoError) (messages : List String), isRecording = true →
        ((SpanOp.recordError err.msg ∈ (Err isRecording marshal code err messages).1 ∧
          SpanOp.setStatus err.msg ∈ (Err isRecording marshal code err messages).1) ↔
          500 ≤ code)) := by
  intro h
  have hmem := (h true (fun _ => none) 400 ⟨"boom", none⟩ [] rfl).mp (by decide)
  omega

/-- C7 (amended): `Err` always attaches the error's message as a span
attribute (on a recording span), and invokes `RecordError` plus
`SetStatus(Error)` if and only if `code >= 500` or marshalling the error
body failed; in particular, when marshalling succeeds, codes below 500
never mark the span as failed. -/
theorem c7_record_error_condition (isRecording : Bool)
    (marshal : ErrBody → Option String) (code : Nat) (err : GoError)
    (messages : List String) (hrec : isRecording = true) :
    SpanOp.setAttr "exception.message" err.msg ∈
      (Err isRecording marshal code err messages).1 ∧
    ((SpanOp.recordError err.msg ∈ (Err isRecording marshal code err messages).1 ∧
      SpanOp.setStatus err.msg ∈ (Err isRecording marshal code err messages).1) ↔
      (500 ≤ code ∨ marshal (chosenErrBody err messages code) = none)) := by
  rw [Err_spanOps, hrec]
  rcases hm : marshal (chosenErrBody err messages code) with _ | s
  · simp [setAttr, RecordErrorOtel]
  · rcases Nat.lt_or_ge code 500 with hc | hc
    · rw [if_neg (by simp), if_neg (by omega)]
      simp [setAttr, RecordErrorOtel]
      omega
    · rw [if_neg (by simp), if_pos hc]
      simp [setAttr, RecordErrorOtel]
      omega

/-- C7 witness: a 500 with a working marshaller records the error and marks
the span failed. -/
theorem c7_record_error_condition_witness :
    SpanOp.setAttr "exception.message" "boom" ∈
      (Err true (fun _ => some "X") 500 ⟨"boom", none⟩ []).1 ∧
    (SpanOp.recordError "boom" ∈ (Err true (fun _ => some "X") 500 ⟨"boom", none⟩ []).1 ∧
      SpanOp.setStatus "boom" ∈ (Err true (fun _ => some "X") 500 ⟨"boom", none⟩ []).1) := by
  have h := c7_record_error_condition true (fun _ => some "X") 500 ⟨"boom", none⟩ [] rfl
  exact ⟨h.1, h.2.mpr (Or.inl (by omega))⟩

/-! ## Claims about the span lifecycle and panic recovery -/

/-- A list of pure attribute operations contributes no `End`. -/
theorem countEnd_map_setAttr {α : Type} (l : List α) (f g : α → String) :
    countEnd (l.map fun p => SpanOp.setAttr (f p) (g p)) = 0 := by
  induction l with
  | nil => rfl
  | cons x rest ih => simpa [countEnd_setAttr] using ih

/-- The query-parameter attribute block contributes no `End`. -/
theorem countEnd_queryParamToSpanOps (req : Request) :
    countEnd (queryParamToSpanOps req) = 0 := by
  unfold queryParamToSpanOps
  rw [countEnd_setAttr]
  exact countEnd_map_setAttr req.queryPairs _ _

/-- The pre-delegation attribute block of `Trace` contributes no `End`. -/
theorem countEnd_tracePreOps (req : Request) (recorder : ResponseWriter) :
    countEnd (tracePreOps req recorder) = 0 := by
  unfold tracePreOps
  rw [countEnd_append, countEnd_map_setAttr req.headers _ _]
  split
  · rw [countEnd_queryParamToSpanOps]
  · rfl

/-- The post-delegation attribute block of `Trace` contributes no `End`. -/
theorem countEnd_tracePostOps (req : Request) (recorder : ResponseWriter)
    (respHeaders : Header) :
    countEnd (tracePostOps req recorder respHeaders) = 0 := by
  unfold tracePostOps
  rw [countEnd_append, countEnd_append, countEnd_append,
    countEnd_map_setAttr respHeaders _ _]
  have h1 : countEnd [SpanOp.setAttr "http.response.status_code" (toString recorder.status),
      SpanOp.setAttr "http.response.size.format" (formatSize (recorder.size : Int)),
      SpanOp.setAttr "http.response.size.raw" (toString recorder.size)] = 0 := rfl
  rw [h1]
  split <;> rfl

/-- `recoverHandler` ends the span exactly once on each of its branches. -/
theorem recoverHandler_end_once (o : Opentelemetry) (isRecording : Bool)
    (marshal : ErrBody → Option String) (req : Request) (pv : PanicValue)
    (stack : String) :
    countEnd (recoverHandler o isRecording marshal req pv stack).spanOps = 1 := by
  unfold recoverHandler
  split
  · rfl
  · split
    · rfl
    · split
      · dsimp only
        rw [countEnd_append, countEnd_append, Err_no_end]
        rfl
      · rfl

/-- The abort sentinel is re-raised unchanged by `recoverHandler`. -/
theorem recoverHandler_abort_repanic (o : Opentelemetry) (isRecording : Bool)
    (marshal : ErrBody → Option String) (req : Request) (stack : String) :
    (recoverHandler o isRecording marshal req .errAbortHandler stack).repanic =
      some .errAbortHandler := by
  unfold recoverHandler
  rw [if_pos rfl]

/-- C3: one run of `Opentelemetry.Trace` ends the span exactly once on
every exit path — normal return, panic with recovery disabled, panic with
recovery enabled (Upgrade or not), and the connection-abort sentinel, which
is re-raised unchanged after the span is ended; the error responder itself
never ends the span, so a handler that wrote an error response before
returning still yields exactly one `End`. -/
theorem c3_span_end_exactly_once (o : Opentelemetry) (isRecording : Bool)
    (marshal : ErrBody → Option String) (req : Request)
    (recorder : ResponseWriter) (respHeaders : Header)
    (outcome : HandlerOutcome) (stack : String) :
    countEnd (TraceRun o isRecording marshal req recorder respHeaders outcome stack).spanOps
        = 1 ∧
    (outcome = .panics .errAbortHandler →
      (TraceRun o isRecording marshal req recorder respHeaders outcome stack).repanic =
        some .errAbortHandler) ∧
    (∀ code err messages, countEnd (Err isRecording marshal code err messages).1 = 0) := by
  refine ⟨?_, ?_, fun code err messages => Err_no_end isRecording marshal code err messages⟩
  · cases outcome with
    | normal =>
      dsimp only [TraceRun]
      rw [countEnd_append, countEnd_append, countEnd_tracePreOps, countEnd_tracePostOps]
      rfl
    | panics pv =>
      dsimp only [TraceRun]
      rw [countEnd_append, countEnd_tracePreOps, recoverHandler_end_once]
  · intro h
    subst h
    dsimp only [TraceRun]
    exact recoverHandler_abort_repanic o isRecording marshal req stack

/-- C3 witness: a concrete abort-panic run ends the span once and re-raises
the sentinel. -/
theorem c3_span_end_exactly_once_witness :
    countEnd (TraceRun ⟨false, false, false, false⟩ true (fun _ => some "X")
        ⟨"GET", "/", "", [], []⟩ ResponseWriter.init []
        (.panics .errAbortHandler) "stack").spanOps = 1 ∧
    (TraceRun ⟨false, false, false, false⟩ true (fun _ => some "X")
        ⟨"GET", "/", "", [], []⟩ ResponseWriter.init []
        (.panics .errAbortHandler) "stack").repanic = some .errAbortHandler := by
  have h := c3_span_end_exactly_once ⟨false, false, false, false⟩ true (fun _ => some "X")
    ⟨"GET", "/", "", [], []⟩ ResponseWriter.init [] (.panics .errAbortHandler) "stack"
  exact ⟨h.1, h.2.1 rfl⟩

/-- C9: with recovery enabled and a non-abort panic, `recoverHandler` on an
`Connection: Upgrade` request records the stack on the span and ends it but
writes nothing to the response; on any other request it delegates to `Err`
with HTTP 500 and a synthetic error carrying the stack text, then ends the
span. -/
theorem c9_recover_upgrade_no_body (o : Opentelemetry) (isRecording : Bool)
    (marshal : ErrBody → Option String) (req : Request) (stack : String)
    (t m : String) (hrec : o.recoverOn = true) :
    (headerGet req.headers "Connection" = "Upgrade" →
      (recoverHandler o isRecording marshal req (.other t m) stack).respOps = [] ∧
      (recoverHandler o isRecording marshal req (.other t m) stack).spanOps =
        [.setAttr "exception.type" t, .setAttr "exception.message" m,
          .recordError stack, .endSpan] ∧
      (recoverHandler o isRecording marshal req (.other t m) stack).repanic = none) ∧
    (headerGet req.headers "Connection" ≠ "Upgrade" →
      (recoverHandler o isRecording marshal req (.other t m) stack).respOps =
        (Err isRecording marshal 500 ⟨stack, none⟩ []).2 ∧
      (recoverHandler o isRecording marshal req (.other t m) stack).spanOps =
        [.setAttr "exception.type" t, .setAttr "exception.message" m] ++
          (Err isRecording marshal 500 ⟨stack, none⟩ []).1 ++ [.endSpan] ∧
      (recoverHandler o isRecording marshal req (.other t m) stack).repanic = none) := by
  unfold recoverHandler
  rw [if_neg (by simp), if_neg (by simp [hrec])]
  constructor
  · intro hconn
    rw [if_neg (by simp [hconn])]
    exact ⟨rfl, rfl, rfl⟩
  · intro hconn
    rw [if_pos hconn]
    exact ⟨rfl, by dsimp only [PanicValue.typeString, PanicValue.message], rfl⟩

/-- C9 witness: a concrete Upgrade request under a panicking handler with
recovery enabled gets no response write and an ended span with the error
recorded. -/
theorem c9_recover_upgrade_no_body_witness :
    (recoverHandler ⟨false, true, false, false⟩ true (fun _ => some "X")
        ⟨"GET", "/", "", [], [("Connection", ["Upgrade"])]⟩ (.other "string" "boom")
        "stack").respOps = [] ∧
    (recoverHandler ⟨false, true, false, false⟩ true (fun _ => some "X")
        ⟨"GET", "/", "", [], [("Connection", ["Upgrade"])]⟩ (.other "string" "boom")
        "stack").spanOps =
      [.setAttr "exception.type" "string", .setAttr "exception.message" "boom",
        .recordError "stack", .endSpan] := by
  have h := (c9_recover_upgrade_no_body ⟨false, true, false, false⟩ true (fun _ => some "X")
    ⟨"GET", "/", "", [], [("Connection", ["Upgrade"])]⟩ "stack" "string" "boom" rfl).1
    (by decide)
  exact ⟨h.1, h.2.1⟩

/-! ## Claims about the binders -/

/-- C8: `BindBodyRequest` fails with exactly HTTP 422 / tag `read_error` on
a read failure, HTTP 422 / tag `unmarshal_error` on a JSON parse failure,
and HTTP 400 / tag `validation_error` on a configured-validator rejection,
delegating each to the error responder and returning `false`; when all
configured steps succeed it returns `true`. -/
theorem c8_bind_body_failure_modes (o : Opentelemetry) (isRecording : Bool)
    (marshal : ErrBody → Option String) (logReqBody : Bool)
    (readRes : Except GoError String) (closeErr : Option GoError)
    (unmarshalRes : String → Option GoError) (validateRes : Option GoError)
    (frame : String) (hrec : isRecording = true) :
    (∀ e, readRes = .error e →
      (BindBodyRequest o isRecording marshal logReqBody readRes closeErr unmarshalRes
          validateRes frame).1 = false ∧
      SpanOp.setAttr "error.type" "read_error" ∈
        (BindBodyRequest o isRecording marshal logReqBody readRes closeErr unmarshalRes
          validateRes frame).2.1 ∧
      (BindBodyRequest o isRecording marshal logReqBody readRes closeErr unmarshalRes
          validateRes frame).2.2 = (Err isRecording marshal 422 e []).2) ∧
    (∀ body e, readRes = .ok body → unmarshalRes body = some e →
      (BindBodyRequest o isRecording marshal logReqBody readRes closeErr unmarshalRes
          validateRes frame).1 = false ∧
      SpanOp.setAttr "error.type" "unmarshal_error" ∈
        (BindBodyRequest o isRecording marshal logReqBody readRes closeErr unmarshalRes
          validateRes frame).2.1 ∧
      (BindBodyRequest o isRecording marshal logReqBody readRes closeErr unmarshalRes
          validateRes frame).2.2 =
        (Err isRecording marshal 422 (StackTrace frame e) []).2) ∧
    (∀ body e, readRes = .ok body → unmarshalRes body = none →
      o.hasValidator = true → validateRes = some e →
      (BindBodyRequest o isRecording marshal logReqBody readRes closeErr unmarshalRes
          validateRes frame).1 = false ∧
      SpanOp.setAttr "error.type" "validation_error" ∈
        (BindBodyRequest o isRecording marshal logReqBody readRes closeErr unmarshalRes
          validateRes frame).2.1 ∧
      (BindBodyRequest o isRecording marshal logReqBody readRes closeErr unmarshalRes
          validateRes frame).2.2 = (Err isRecording marshal 400 e []).2) ∧
    (∀ body, readRes = .ok body → unmarshalRes body = none →
      (o.hasValidator = true → validateRes = none) →
      (BindBodyRequest o isRecording marshal logReqBody readRes closeErr unmarshalRes
          validateRes frame).1 = true ∧
      (BindBodyRequest o isRecording marshal logReqBody readRes closeErr unmarshalRes
          validateRes frame).2.2 = []) := by
  refine ⟨?_, ?_, ?_, ?_⟩
  · intro e hread
    subst hread
    dsimp only [BindBodyRequest]
    exact ⟨rfl, by simp [setAttr, hrec], rfl⟩
  · intro body e hread hun
    subst hread
    dsimp only [BindBodyRequest]
    rw [hun]
    exact ⟨rfl, by simp [setAttr, hrec], rfl⟩
  · intro body e hread hun hval hres
    subst hread
    dsimp only [BindBodyRequest]
    rw [hun, hval, if_pos rfl, hres]
    exact ⟨rfl, by simp [setAttr, hrec], rfl⟩
  · intro body hread hun hval
    subst hread
    dsimp only [BindBodyRequest]
    rw [hun]
    rcases hv : o.hasValidator with _ | _
    · simp [hv]
    · simp [hv, hval hv]

/-- C8 witness: the read-failure path at concrete inputs returns `false`
with tag `read_error` and a 422 delegated to the error responder. -/
theorem c8_bind_body_failure_modes_witness :
    (BindBodyRequest ⟨false, false, false, true⟩ true (fun _ => some "X") true
        (.error ⟨"io fail", none⟩) none (fun _ => none) none "f").1 = false ∧
    SpanOp.setAttr "error.type" "read_error" ∈
      (BindBodyRequest ⟨false, false, false, true⟩ true (fun _ => some "X") true
        (.error ⟨"io fail", none⟩) none (fun _ => none) none "f").2.1 ∧
    (BindBodyRequest ⟨false, false, false, true⟩ true (fun _ => some "X") true
        (.error ⟨"io fail", none⟩) none (fun _ => none) none "f").2.2 =
      (Err true (fun _ => some "X") 422 ⟨"io fail", none⟩ []).2 :=
  (c8_bind_body_failure_modes ⟨false, false, false, true⟩ true (fun _ => some "X") true
    (.error ⟨"io fail", none⟩) none (fun _ => none) none "f" rfl).1 ⟨"io fail", none⟩ rfl

/-- C10: on every successful `BindQueryParam` the request's `Form` is nil,
and it is already nil once parsing and decoding succeed — before the
validator runs; on the parse-failure path the form is left as the
(possibly freshly allocated) pre-existing map, and on the decode-failure
path it is left holding the parsed query values merged into the
pre-existing map. -/
theorem c10_bind_query_form_reset (o : Opentelemetry) (isRecording : Bool)
    (marshal : ErrBody → Option String) (form0 : Option UrlValues)
    (parseRes : Except GoError UrlValues) (decodeRes : UrlValues → Option GoError)
    (validateRes : Option GoError) (frame : String) :
    ((BindQueryParam o isRecording marshal form0 parseRes decodeRes validateRes
        frame).1 = true →
      (BindQueryParam o isRecording marshal form0 parseRes decodeRes validateRes
        frame).2.1 = none) ∧
    (∀ vs, parseRes = .ok vs →
      decodeRes (copyValues (form0.getD []) vs) = none →
      (BindQueryParam o isRecording marshal form0 parseRes decodeRes validateRes
        frame).2.1 = none) ∧
    (∀ e, parseRes = .error e →
      (BindQueryParam o isRecording marshal form0 parseRes decodeRes validateRes
        frame).2.1 = some (form0.getD [])) ∧
    (∀ vs e, parseRes = .ok vs →
      decodeRes (copyValues (form0.getD []) vs) = some e →
      (BindQueryParam o isRecording marshal form0 parseRes decodeRes validateRes
        frame).2.1 = some (copyValues (form0.getD []) vs)) := by
  refine ⟨?_, ?_, ?_, ?_⟩
  · intro htrue
    rcases hp : parseRes with e | vs
    · subst hp
      unfold BindQueryParam ParseQueryParam at htrue
      simp at htrue
    · rcases hd : decodeRes (copyValues (form0.getD []) vs) with _ | e
      · subst hp
        unfold BindQueryParam ParseQueryParam
        dsimp only
        simp only [Option.getD_some]
        rw [hd]
        dsimp only
        rcases hv : o.hasValidator with _ | _
        · simp [hv]
        · simp only [hv]
          rcases validateRes with _ | e <;> simp
      · exfalso
        subst hp
        unfold BindQueryParam ParseQueryParam at htrue
        dsimp only at htrue
        simp only [Option.getD_some] at htrue
        rw [hd] at htrue
        simp at htrue
  · intro vs hp hd
    subst hp
    unfold BindQueryParam ParseQueryParam
    dsimp only
    simp only [Option.getD_some]
    rw [hd]
    dsimp only
    rcases hv : o.hasValidator with _ | _
    · simp [hv]
    · simp only [hv]
      rcases validateRes with _ | e <;> simp
  · intro e hp
    subst hp
    rfl
  · intro vs e hp hd
    subst hp
    unfold BindQueryParam ParseQueryParam
    dsimp only
    simp only [Option.getD_some]
    rw [hd]

/-- C10 witness: a concrete successful bind clears `r.Form`, and a concrete
decode failure leaves the parsed values in place. -/
theorem c10_bind_query_form_reset_witness :
    (BindQueryParam ⟨false, false, false, false⟩ true (fun _ => some "X") none
        (.ok [("a", ["1"])]) (fun _ => none) none "f").2.1 = none ∧
    (BindQueryParam ⟨false, false, false, false⟩ true (fun _ => some "X") none
        (.ok [("a", ["1"])]) (fun _ => some ⟨"decode fail", none⟩) none "f").2.1 =
      some (copyValues [] [("a", ["1"])]) := by
  constructor
  · exact (c10_bind_query_form_reset ⟨false, false, false, false⟩ true (fun _ => some "X")
      none (.ok [("a", ["1"])]) (fun _ => none) none "f").2.1 [("a", ["1"])] rfl rfl
  · exact (c10_bind_query_form_reset ⟨false, false, false, false⟩ true (fun _ => some "X")
      none (.ok [("a", ["1"])]) (fun _ => some ⟨"decode fail", none⟩) none "f").2.2.2
      [("a", ["1"])] ⟨"decode fail", none⟩ rfl rfl

end HttpLogWrap
